import Mathlib

/-!
Shallow embedding of `aws/hhvm1/lambdas/activities.py`.

The module defines a base `Activity` class plus six concrete subclasses
(`MakeSourceTarball`, `MakeBinaryPackage`, `PublishBinaryPackages`,
`PublishSourceTarball`, `PublishDockerImages`, `BuildAndPublishMacOS`)
and one free function `any_unpublished`.  Calls into external services
(`boto3`, the Docker registry, the `common` helper module) are modelled as
explicit oracle parameters: the functions here receive the data those calls
would return, and Python exceptions become `Except String`.
-/

/-- True exactly when the embedded Python code raised. -/
def raises {ε α : Type} (e : Except ε α) : Bool :=
  match e with
  | Except.error _ => true
  | Except.ok _ => false

/-- Embedding of the free function `any_unpublished(statuses)`.
`statuses` is the Python dict as an association list (platform, status);
dict iteration order is the list order. -/
def any_unpublished (statuses : List (String × String)) : Except String Bool :=
  if statuses.any (fun p => p.2 == "not_built") then
    Except.error ("cannot publish because there are unbuilt packages: " ++
      String.intercalate ", "
        ((statuses.filter (fun p => p.2 == "not_built")).map Prod.fst))
  else
    Except.ok (statuses.any (fun p => p.2 == "built_not_published"))

/-- Python truthiness test `not x` for the optional string class attributes
(`None` and the empty string are falsy). -/
def falsy : Option String → Bool
  | none => true
  | some s => s.isEmpty

/-- The static class attributes every `Activity` subclass may override. -/
structure ActivityClassAttrs where
  name : String
  ec2_iam_arn : Option String
  activity_arn : Option String
  script_name : Option String
  init_script : Option String := none
deriving DecidableEq, Repr

/-- The six concrete `Activity` subclasses of the module. -/
inductive ActivityKind : Type
  | makeSourceTarball
  | makeBinaryPackage
  | publishBinaryPackages
  | publishSourceTarball
  | publishDockerImages
  | buildAndPublishMacOS
deriving DecidableEq, Repr

def MakeSourceTarball.attrs : ActivityClassAttrs :=
  { name := "MakeSourceTarball"
    ec2_iam_arn :=
      some "arn:aws:iam::223121549624:instance-profile/hhvm-source-tarball-builder"
    activity_arn :=
      some "arn:aws:states:us-west-2:223121549624:activity:hhvm-make-source-tarball"
    script_name := some "make-source-tarball.sh" }

def MakeBinaryPackage.attrs : ActivityClassAttrs :=
  { name := "MakeBinaryPackage"
    ec2_iam_arn :=
      some "arn:aws:iam::223121549624:instance-profile/hhvm-binary-package-builder"
    activity_arn :=
      some "arn:aws:states:us-west-2:223121549624:activity:hhvm-make-binary-package"
    script_name := some "make-binary-package.sh" }

def PublishBinaryPackages.attrs : ActivityClassAttrs :=
  { name := "PublishBinaryPackages"
    ec2_iam_arn :=
      some "arn:aws:iam::223121549624:instance-profile/hhvm-repo-builders"
    activity_arn :=
      some "arn:aws:states:us-west-2:223121549624:activity:hhvm-publish-binary-packages"
    script_name := some "update-repos.sh"
    init_script := some "aws/hhvm1/worker/init/update-repos.sh" }

def PublishSourceTarball.attrs : ActivityClassAttrs :=
  { name := "PublishSourceTarball"
    ec2_iam_arn :=
      some "arn:aws:iam::223121549624:instance-profile/hhvm-source-tarball-builder"
    activity_arn :=
      some "arn:aws:states:us-west-2:223121549624:activity:hhvm-publish-source-tarball"
    script_name := some "publish-release-source.sh" }

def PublishDockerImages.attrs : ActivityClassAttrs :=
  { name := "PublishDockerImages"
    ec2_iam_arn :=
      some "arn:aws:iam::223121549624:instance-profile/hhvm-repo-builders"
    activity_arn :=
      some "arn:aws:states:us-west-2:223121549624:activity:hhvm-publish-docker-images"
    script_name := some "update-repos.sh" }

def BuildAndPublishMacOS.attrs : ActivityClassAttrs :=
  { name := "BuildAndPublishMacOS"
    ec2_iam_arn :=
      some "arn:aws:iam::223121549624:instance-profile/hhvm-macos-builds-triggerer"
    activity_arn :=
      some "arn:aws:states:us-west-2:223121549624:activity:hhvm-build-and-publish-macos"
    script_name := some "trigger-macos-builds.sh" }

/-- Static attributes of each concrete subclass. -/
def attrs : ActivityKind → ActivityClassAttrs
  | ActivityKind.makeSourceTarball => MakeSourceTarball.attrs
  | ActivityKind.makeBinaryPackage => MakeBinaryPackage.attrs
  | ActivityKind.publishBinaryPackages => PublishBinaryPackages.attrs
  | ActivityKind.publishSourceTarball => PublishSourceTarball.attrs
  | ActivityKind.publishDockerImages => PublishDockerImages.attrs
  | ActivityKind.buildAndPublishMacOS => BuildAndPublishMacOS.attrs

structure Tag where
  key : String
  value : String
deriving DecidableEq, Repr, Inhabited

structure TagSpecification where
  resourceType : String
  tags : List Tag
deriving DecidableEq, Repr, Inhabited

structure Ebs where
  deleteOnTermination : Bool
  volumeSize : Nat
  volumeType : String
deriving DecidableEq, Repr, Inhabited

structure BlockDeviceMapping where
  deviceName : String
  ebs : Ebs
deriving DecidableEq, Repr, Inhabited

/-- The instance-launch configuration dict built by `ec2_params`.  Keys a
subclass may add via `dict.update` are optional fields defaulting to the
"key absent" value. -/
structure Ec2Params where
  imageId : String
  maxCount : Nat
  minCount : Nat
  instanceType : String
  securityGroups : List String
  instanceInitiatedShutdownBehavior : String
  iamInstanceProfileArn : String
  keyName : String
  tagSpecifications : List TagSpecification
  userData : String
  blockDeviceMappings : List BlockDeviceMapping := []
  placementAvailabilityZone : Option String := none
deriving DecidableEq, Repr, Inhabited

/-- Oracle for the helper module `common` (not part of this file): `url`
builds a public URL from a repository path, `format_env` renders an
environment dict, `fetch` renders the shell snippet downloading a script. -/
structure CommonOracle where
  url : String → String
  format_env : List (String × String) → String
  fetch : String → String

/-- The `UserData` f-string of `Activity.ec2_params`, whitespace included. -/
def mkUserData (activity_arn script_url init_url env_lines fetch_line : String) :
    String :=
  "#!/bin/bash\n        ACTIVITY_ARN=\"" ++ activity_arn ++ "\"\n        " ++
    ("SCRIPT_URL=\"" ++ script_url ++ "\"") ++
    ("\n        INIT_URL=\"" ++ init_url ++ "\"\n        " ++ env_lines ++
      "\n        " ++ fetch_line ++ "\n      ")

def Activity.worker_env : List (String × String) := []

def Activity.task_env : List (String × String) := []

/-- Embedding of `Activity.ec2_params`, parametric in the class attributes,
the `fake_ec2` flag from the event, and the subclass `worker_env`. -/
def Activity.ec2_params (c : CommonOracle) (a : ActivityClassAttrs)
    (fake_ec2 : Bool) (worker_env : List (String × String)) :
    Except String Ec2Params :=
  if falsy a.ec2_iam_arn || falsy a.activity_arn || falsy a.script_name then
    Except.error ("missing config in " ++ a.name)
  else
    let script_url := c.url
      (if fake_ec2 then "aws/hhvm1/worker/dummy-task.sh"
       else "aws/userdata/" ++ a.script_name.getD "")
    let init_url := if falsy a.init_script then "" else c.url (a.init_script.getD "")
    Except.ok
      { imageId := "ami-6e1a0117"
        maxCount := 1
        minCount := 1
        instanceType := "t2.micro"
        securityGroups := ["hhvm-binary-package-builders"]
        instanceInitiatedShutdownBehavior := "terminate"
        iamInstanceProfileArn := a.ec2_iam_arn.getD ""
        keyName := "hhvm-package-builders"
        tagSpecifications := [
          { resourceType := "instance"
            tags := [
              { key := "Name", value := "ww-0-" ++ a.name },
              { key := "ActivityArn", value := a.activity_arn.getD "" }] }]
        userData := mkUserData (a.activity_arn.getD "") script_url init_url
          (c.format_env worker_env) (c.fetch "aws/hhvm1/worker/worker.sh") }

/-- Embedding of `MakeSourceTarball.ec2_params`: `super().ec2_params()` then
`params.update` with a `BlockDeviceMappings` entry. -/
def MakeSourceTarball.ec2_params (c : CommonOracle) (fake_ec2 : Bool) :
    Except String Ec2Params :=
  (Activity.ec2_params c MakeSourceTarball.attrs fake_ec2 Activity.worker_env).map
    fun params =>
      { params with
        blockDeviceMappings := [
          { deviceName := "/dev/sda1"
            ebs := { deleteOnTermination := true, volumeSize := 16,
                     volumeType := "gp2" } }] }

/-- Embedding of `MakeBinaryPackage.ec2_params`: updates `InstanceType` and
`BlockDeviceMappings`. -/
def MakeBinaryPackage.ec2_params (c : CommonOracle) (fake_ec2 : Bool) :
    Except String Ec2Params :=
  (Activity.ec2_params c MakeBinaryPackage.attrs fake_ec2 Activity.worker_env).map
    fun params =>
      { params with
        instanceType := "m5.2xlarge"
        blockDeviceMappings := [
          { deviceName := "/dev/sda1"
            ebs := { deleteOnTermination := true, volumeSize := 95,
                     volumeType := "gp2" } }] }

/-- Embedding of `PublishBinaryPackages.ec2_params`: updates `Placement` and
`BlockDeviceMappings`. -/
def PublishBinaryPackages.ec2_params (c : CommonOracle) (fake_ec2 : Bool) :
    Except String Ec2Params :=
  (Activity.ec2_params c PublishBinaryPackages.attrs fake_ec2 Activity.worker_env).map
    fun params =>
      { params with
        placementAvailabilityZone := some "us-west-2a"
        blockDeviceMappings := [
          { deviceName := "/dev/sda1"
            ebs := { deleteOnTermination := true, volumeSize := 100,
                     volumeType := "gp2" } }] }

def BuildAndPublishMacOS.worker_env : List (String × String) :=
  [("SKIP_SEND_TASK_SUCCESS", "1")]

def PublishBinaryPackages.task_env : List (String × String) := [("REPOS_ONLY", "1")]

def PublishDockerImages.task_env : List (String × String) := [("DOCKER_ONLY", "1")]

/-- The effective `worker_env` of each subclass (only `BuildAndPublishMacOS`
overrides the base). -/
def worker_env_of : ActivityKind → List (String × String)
  | ActivityKind.buildAndPublishMacOS => BuildAndPublishMacOS.worker_env
  | _ => Activity.worker_env

/-- The effective `ec2_params` of each subclass: three override it, the
others inherit `Activity.ec2_params`. -/
def ec2_params_of (k : ActivityKind) (c : CommonOracle) (fake_ec2 : Bool) :
    Except String Ec2Params :=
  match k with
  | ActivityKind.makeSourceTarball => MakeSourceTarball.ec2_params c fake_ec2
  | ActivityKind.makeBinaryPackage => MakeBinaryPackage.ec2_params c fake_ec2
  | ActivityKind.publishBinaryPackages => PublishBinaryPackages.ec2_params c fake_ec2
  | k => Activity.ec2_params c (attrs k) fake_ec2 (worker_env_of k)

/-- An EC2 instance as seen through the `boto3` filter oracle: its state
name and its tags. -/
structure Ec2Instance where
  state : String
  tags : List Tag
deriving DecidableEq, Repr

/-- Embedding of `Activity.has_ec2_workers`: some instance among `instances` (the oracle
for the EC2 API) matches both filters `tag:ActivityArn = activity_arn` and
`instance-state-name in [pending, running]`. -/
def Activity.has_ec2_workers (instances : List Ec2Instance)
    (activity_arn : String) : Bool :=
  instances.any fun i =>
    i.tags.any (fun t => t.key == "ActivityArn" && t.value == activity_arn) &&
      (i.state == "pending" || i.state == "running")

def Activity.needs_ec2_worker : Bool := true

def PublishBinaryPackages.needs_ec2_worker (instances : List Ec2Instance) : Bool :=
  !(Activity.has_ec2_workers instances
    (PublishBinaryPackages.attrs.activity_arn.getD ""))

/-- The effective `needs_ec2_worker` of each subclass (only
`PublishBinaryPackages` overrides the base). -/
def needs_ec2_worker_of (k : ActivityKind) (instances : List Ec2Instance) : Bool :=
  match k with
  | ActivityKind.publishBinaryPackages =>
      PublishBinaryPackages.needs_ec2_worker instances
  | _ => Activity.needs_ec2_worker

/-- An object returned by the S3 `list_objects` oracle. -/
structure S3Object where
  key : String
deriving DecidableEq, Repr

/-- Embedding of `MakeSourceTarball.should_run`: `s3_path` is the path entry of
`common.env_for_version`, `contents` the `Contents` of the bucket listing. -/
def MakeSourceTarball.should_run (s3_path : String) (contents : List S3Object) :
    Bool :=
  !(contents.any fun obj => obj.key == s3_path)

/-- Embedding of `MakeBinaryPackage.should_run`, with `common.build_status` as oracle. -/
def MakeBinaryPackage.should_run (build_status : String → String → String)
    (version platform : String) : Bool :=
  build_status version platform == "not_built"

/-- Embedding of `PublishBinaryPackages.should_run`, with `common.build_statuses` (an
association list) and `common.is_linux` as oracles. -/
def PublishBinaryPackages.should_run (is_linux : String → Bool)
    (buildStatuses : List (String × String)) : Except String Bool :=
  any_unpublished (buildStatuses.filter fun ps => is_linux ps.1)

/-- Embedding of `PublishSourceTarball.should_run`: the Python conjunction short-circuits, so a
nightly version returns `False` before `any_unpublished` runs. -/
def PublishSourceTarball.should_run (is_nightly : String → Bool)
    (version : String) (buildStatuses : List (String × String)) :
    Except String Bool :=
  if is_nightly version then Except.ok false
  else any_unpublished
    (buildStatuses.filter fun ps => ps.1 == "source" || ps.1 == "source_gpg")

/-- One entry of the JSON list returned by the Docker registry. -/
structure DockerTagEntry where
  name : String
deriving DecidableEq, Repr

/-- Embedding of `PublishDockerImages.docker_tags`: the set of `name` fields of the
registry response for `repo`, as a deduplicated list. -/
def PublishDockerImages.docker_tags (registry : String → List DockerTagEntry)
    (repo : String) : List String :=
  ((registry repo).map fun t => t.name).dedup

def PublishDockerImages.should_run (registry : String → List DockerTagEntry)
    (version : String) : Bool :=
  !((PublishDockerImages.docker_tags registry "hhvm").contains version) ||
    !((PublishDockerImages.docker_tags registry "hhvm-proxygen").contains version)

/-- Embedding of `BuildAndPublishMacOS.platforms_to_build`.  `macos_versions` is the
config dict `common.Config.macos_versions`, `eventPlatforms` the (possibly
empty, i.e. falsy) platforms list of the event buildInput, `buildStatuses` the
`common.build_statuses` oracle.  Python sets become deduplicated lists. -/
def BuildAndPublishMacOS.platforms_to_build
    (macos_versions : List (String × String)) (eventPlatforms : List String)
    (buildStatuses : List (String × String)) : List String :=
  let requested :=
    if eventPlatforms.isEmpty then macos_versions.map Prod.fst
    else (macos_versions.map Prod.fst).filter fun p => eventPlatforms.contains p
  if requested.isEmpty then []
  else ((buildStatuses.filter
    (fun ps => ps.2 != "succeeded" && requested.contains ps.1)).map Prod.fst).dedup

def BuildAndPublishMacOS.should_run (macos_versions : List (String × String))
    (eventPlatforms : List String) (buildStatuses : List (String × String)) :
    Bool :=
  !(BuildAndPublishMacOS.platforms_to_build macos_versions eventPlatforms
      buildStatuses).isEmpty

/-- Embedding of `BuildAndPublishMacOS.task_env`.  The dict lookup
`macos_versions[next(iter(platforms))]` raises `KeyError` when the key is
absent, modelled by the inner `match`. -/
def BuildAndPublishMacOS.task_env (macos_versions : List (String × String))
    (eventPlatforms : List String) (buildStatuses : List (String × String)) :
    Except String (List (String × String)) :=
  let platforms := BuildAndPublishMacOS.platforms_to_build macos_versions
    eventPlatforms buildStatuses
  if platforms.length = macos_versions.length then
    Except.ok []
  else if platforms.length = 1 then
    match macos_versions.lookup (platforms.headD "") with
    | some v => Except.ok [("PLATFORM", v)]
    | none => Except.error ("KeyError: " ++ platforms.headD "")
  else
    Except.error
      ("we can only build all platforms or a single platform, but got: " ++
        String.intercalate ", " platforms)

/-- The launch-configuration fields every `ec2_params` variant must keep: a
single instance (`MinCount = MaxCount = 1`) tagged with its activity ARN. -/
def core_launch_invariant (p : Ec2Params) (activity_arn : String) : Prop :=
  p.minCount = 1 ∧ p.maxCount = 1 ∧
    ∃ ts ∈ p.tagSpecifications,
      ({ key := "ActivityArn", value := activity_arn } : Tag) ∈ ts.tags

/-- A concrete `common` oracle used to evaluate theorems on closed inputs. -/
def witnessOracle : CommonOracle :=
  { url := fun s => s, format_env := fun _ => "", fetch := fun _ => "" }

/-- C1: `any_unpublished` raises if and only if some status value equals
"not_built"; when no value is "not_built" it returns `true` if and only if
some status value equals "built_not_published". -/
theorem any_unpublished_spec (statuses : List (String × String)) :
    (raises (any_unpublished statuses) = true ↔
      ∃ p ∈ statuses, p.2 = "not_built") ∧
    ((¬ ∃ p ∈ statuses, p.2 = "not_built") →
      (any_unpublished statuses = Except.ok true ↔
        ∃ p ∈ statuses, p.2 = "built_not_published")) := by
  constructor
  · unfold any_unpublished
    split
    · next h =>
      simp only [raises, true_iff]
      simpa using h
    · next h =>
      simp only [raises, false_iff]
      simpa using h
  · intro hnb
    unfold any_unpublished
    split
    · next h =>
      exact absurd (by simpa using h) hnb
    · next h =>
      constructor
      · intro hok
        have := Except.ok.inj hok
        simpa using this
      · intro hex
        have : statuses.any (fun p => p.2 == "built_not_published") = true := by
          simpa using hex
        simp [this]

/-- Witness for C1 at a concrete status mapping. -/
theorem any_unpublished_spec_witness :
    any_unpublished [("linux", "built_not_published"), ("macos", "succeeded")] =
      Except.ok true := by
  exact ((any_unpublished_spec
      [("linux", "built_not_published"), ("macos", "succeeded")]).2
    (by decide)).mpr (by decide)

/-- C4: `MakeBinaryPackage.should_run` returns `true` exactly when the
queried build status of the version and platform of the event is "not_built". -/
theorem makeBinaryPackage_should_run_iff
    (build_status : String → String → String) (version platform : String) :
    MakeBinaryPackage.should_run build_status version platform = true ↔
      build_status version platform = "not_built" := by
  simp [MakeBinaryPackage.should_run]

/-- Witness for C4 at a concrete build-status oracle. -/
theorem makeBinaryPackage_should_run_iff_witness :
    MakeBinaryPackage.should_run (fun _ _ => "not_built") "4.1.0" "focal" = true :=
  (makeBinaryPackage_should_run_iff (fun _ _ => "not_built") "4.1.0" "focal").mpr
    rfl

/-- C5: `MakeSourceTarball.should_run` returns `true` exactly when no listed
listed object has a `Key` equal to the configured `S3_PATH`. -/
theorem makeSourceTarball_should_run_iff (s3_path : String)
    (contents : List S3Object) :
    MakeSourceTarball.should_run s3_path contents = true ↔
      ∀ obj ∈ contents, obj.key ≠ s3_path := by
  simp [MakeSourceTarball.should_run, List.any_eq_true]

/-- Witness for C5 at a concrete bucket listing. -/
theorem makeSourceTarball_should_run_iff_witness :
    MakeSourceTarball.should_run "hhvm-4.1.0.tar.gz"
      [{ key := "hhvm-4.1.0.tar.gz.sig" }] = true :=
  (makeSourceTarball_should_run_iff "hhvm-4.1.0.tar.gz"
    [{ key := "hhvm-4.1.0.tar.gz.sig" }]).mpr (by decide)

/-- C6: `PublishDockerImages.should_run` returns `true` exactly when the
version is missing from the tag set of `hhvm` or from that of
`hhvm-proxygen`, hence `false` exactly when it is present in both. -/
theorem publishDockerImages_should_run_iff
    (registry : String → List DockerTagEntry) (version : String) :
    (PublishDockerImages.should_run registry version = true ↔
      (version ∉ PublishDockerImages.docker_tags registry "hhvm" ∨
        version ∉ PublishDockerImages.docker_tags registry "hhvm-proxygen")) ∧
    (PublishDockerImages.should_run registry version = false ↔
      (version ∈ PublishDockerImages.docker_tags registry "hhvm" ∧
        version ∈ PublishDockerImages.docker_tags registry "hhvm-proxygen")) := by
  constructor
  · simp [PublishDockerImages.should_run, List.contains, List.elem_iff, or_comm]
  · simp [PublishDockerImages.should_run, List.contains, List.elem_iff, and_comm]

/-- Witness for C6 at a concrete registry oracle. -/
theorem publishDockerImages_should_run_iff_witness :
    PublishDockerImages.should_run
      (fun repo => if repo == "hhvm" then [{ name := "4.2.0" }] else []) "4.2.0" =
      true :=
  ((publishDockerImages_should_run_iff
      (fun repo => if repo == "hhvm" then [{ name := "4.2.0" }] else [])
      "4.2.0").1).mpr (Or.inr (by decide))

/-- C7: `PublishBinaryPackages.needs_ec2_worker` returns `true` exactly when
no pending or running instance carries the tag `ActivityArn` equal to the
activity ARN of the class; the `needs_ec2_worker` of every other subclass is
unconditionally `true`. -/
theorem needs_ec2_worker_spec (instances : List Ec2Instance) :
    (needs_ec2_worker_of ActivityKind.publishBinaryPackages instances = true ↔
      ¬ ∃ i ∈ instances,
        (∃ t ∈ i.tags, t.key = "ActivityArn" ∧
          t.value = PublishBinaryPackages.attrs.activity_arn.getD "") ∧
        (i.state = "pending" ∨ i.state = "running")) ∧
    (∀ k : ActivityKind, k ≠ ActivityKind.publishBinaryPackages →
      needs_ec2_worker_of k instances = true) := by
  constructor
  · simp [needs_ec2_worker_of, PublishBinaryPackages.needs_ec2_worker,
      Activity.has_ec2_workers, List.any_eq_true]
  · intro k hk
    cases k <;>
      simp_all [needs_ec2_worker_of, Activity.needs_ec2_worker]

/-- Witness for C7 at a concrete instance list. -/
theorem needs_ec2_worker_spec_witness :
    needs_ec2_worker_of ActivityKind.publishBinaryPackages
      [{ state := "running",
         tags := [{ key := "ActivityArn", value := "some-other-activity" }] }] =
      true :=
  ((needs_ec2_worker_spec
      [{ state := "running",
         tags := [{ key := "ActivityArn", value := "some-other-activity" }] }]).1).mpr
    (by decide)

/-- C9: for a nightly version, `PublishSourceTarball.should_run` returns
`Except.ok false` whatever the build statuses are, so it never raises even
when some status is "not_built". -/
theorem publishSourceTarball_nightly_no_run (is_nightly : String → Bool)
    (version : String) (buildStatuses : List (String × String))
    (h : is_nightly version = true) :
    PublishSourceTarball.should_run is_nightly version buildStatuses =
      Except.ok false := by
  simp [PublishSourceTarball.should_run, h]

/-- Witness for C9: a nightly version with an unbuilt source package still
yields `ok false`. -/
theorem publishSourceTarball_nightly_no_run_witness :
    PublishSourceTarball.should_run (fun _ => true) "2024.01.15"
      [("source", "not_built"), ("source_gpg", "not_built")] = Except.ok false :=
  publishSourceTarball_nightly_no_run (fun _ => true) "2024.01.15"
    [("source", "not_built"), ("source_gpg", "not_built")] rfl

theorem platforms_to_build_subset (mv : List (String × String))
    (ep : List String) (bs : List (String × String)) :
    ∀ x ∈ BuildAndPublishMacOS.platforms_to_build mv ep bs,
      x ∈ mv.map Prod.fst := by
  intro x hx
  simp only [BuildAndPublishMacOS.platforms_to_build] at hx
  split at hx
  · split at hx
    · simp at hx
    · rw [List.mem_dedup] at hx
      obtain ⟨ps, hps, rfl⟩ := List.mem_map.mp hx
      have h2 := (List.mem_filter.mp hps).2
      simp only [Bool.and_eq_true] at h2
      simpa [List.contains, List.elem_iff] using h2.2
  · split at hx
    · simp at hx
    · rw [List.mem_dedup] at hx
      obtain ⟨ps, hps, rfl⟩ := List.mem_map.mp hx
      have h2 := (List.mem_filter.mp hps).2
      simp only [Bool.and_eq_true] at h2
      have h3 : ps.1 ∈ (mv.map Prod.fst).filter fun p => ep.contains p := by
        simpa [List.contains, List.elem_iff] using h2.2
      exact (List.mem_filter.mp h3).1

theorem platforms_to_build_nodup (mv : List (String × String))
    (ep : List String) (bs : List (String × String)) :
    (BuildAndPublishMacOS.platforms_to_build mv ep bs).Nodup := by
  simp only [BuildAndPublishMacOS.platforms_to_build]
  split <;> split
  · exact List.nodup_nil
  · exact List.nodup_dedup _
  · exact List.nodup_nil
  · exact List.nodup_dedup _

theorem lookup_isSome_of_mem_keys (l : List (String × String)) (x : String)
    (hx : x ∈ l.map Prod.fst) : ∃ v, l.lookup x = some v := by
  induction l with
  | nil => simp at hx
  | cons hd tl ih =>
    by_cases hxk : x = hd.1
    · exact ⟨hd.2, by simp [List.lookup, hxk]⟩
    · have hb : (x == hd.1) = false := beq_eq_false_iff_ne.mpr hxk
      have hmem : x ∈ tl.map Prod.fst := by
        simp only [List.map_cons, List.mem_cons] at hx
        exact hx.resolve_left hxk
      obtain ⟨v, hv⟩ := ih hmem
      exact ⟨v, by simp [List.lookup, hb, hv]⟩

theorem nodup_subset_length_le {α : Type} [DecidableEq α] {l₁ l₂ : List α}
    (h₁ : l₁.Nodup) (hs : ∀ x ∈ l₁, x ∈ l₂) : l₁.length ≤ l₂.length :=
  calc l₁.length = l₁.toFinset.card := (List.toFinset_card_of_nodup h₁).symm
    _ ≤ l₂.toFinset.card := Finset.card_le_card (by
        intro x hxm
        rw [List.mem_toFinset] at hxm ⊢
        exact hs x hxm)
    _ ≤ l₂.length := List.toFinset_card_le _

theorem headD_mem_of_ne_nil {α : Type} (l : List α) (d : α) (h : l ≠ []) :
    l.headD d ∈ l := by
  cases l with
  | nil => exact absurd rfl h
  | cons hd tl => simp [List.headD]

/-- C2: `BuildAndPublishMacOS.task_env` raises exactly when the size of
`platforms_to_build()` is neither the number of entries of
`Config.macos_versions` nor 1; when `should_run()` is `true` and
`Config.macos_versions` has at most 2 entries, `task_env` does not raise. -/
theorem buildAndPublishMacOS_task_env_spec (mv : List (String × String))
    (ep : List String) (bs : List (String × String)) :
    (raises (BuildAndPublishMacOS.task_env mv ep bs) = true ↔
      ¬((BuildAndPublishMacOS.platforms_to_build mv ep bs).length = mv.length ∨
        (BuildAndPublishMacOS.platforms_to_build mv ep bs).length = 1)) ∧
    (mv.length ≤ 2 →
      BuildAndPublishMacOS.should_run mv ep bs = true →
      raises (BuildAndPublishMacOS.task_env mv ep bs) = false) := by
  have hiff : raises (BuildAndPublishMacOS.task_env mv ep bs) = true ↔
      ¬((BuildAndPublishMacOS.platforms_to_build mv ep bs).length = mv.length ∨
        (BuildAndPublishMacOS.platforms_to_build mv ep bs).length = 1) := by
    simp only [BuildAndPublishMacOS.task_env]
    split
    · next h1 => simp [raises, h1]
    · next h1 =>
      split
      · next h2 =>
        have hne : BuildAndPublishMacOS.platforms_to_build mv ep bs ≠ [] := by
          intro hnil
          rw [hnil] at h2
          simp at h2
        have hmem := headD_mem_of_ne_nil _ "" hne
        obtain ⟨v, hv⟩ := lookup_isSome_of_mem_keys mv _
          (platforms_to_build_subset mv ep bs _ hmem)
        rw [hv]
        simp [raises, h1, h2]
      · next h2 => simp [raises, h1, h2]
  refine ⟨hiff, fun hle hrun => ?_⟩
  have hne : BuildAndPublishMacOS.platforms_to_build mv ep bs ≠ [] := by
    intro hnil
    simp [BuildAndPublishMacOS.should_run, hnil] at hrun
  have hpos : 1 ≤ (BuildAndPublishMacOS.platforms_to_build mv ep bs).length :=
    List.length_pos.mpr hne
  have hsub : (BuildAndPublishMacOS.platforms_to_build mv ep bs).length ≤
      mv.length := by
    have := nodup_subset_length_le (platforms_to_build_nodup mv ep bs)
      (platforms_to_build_subset mv ep bs)
    simpa using this
  rcases Bool.eq_false_or_eq_true
    (raises (BuildAndPublishMacOS.task_env mv ep bs)) with ht | hf
  · exact absurd (hiff.mp ht) (by omega)
  · exact hf

/-- Witness for C2: two configured macOS versions, one platform left to
build, `should_run` true; `task_env` succeeds. -/
theorem buildAndPublishMacOS_task_env_spec_witness :
    raises (BuildAndPublishMacOS.task_env [("high_sierra", "11.0"), ("mojave", "12.0")]
      [] [("high_sierra", "not_built"), ("mojave", "succeeded")]) = false :=
  (buildAndPublishMacOS_task_env_spec [("high_sierra", "11.0"), ("mojave", "12.0")]
    [] [("high_sierra", "not_built"), ("mojave", "succeeded")]).2
    (by decide) (by decide)

theorem except_map_ok {ε α β : Type} (f : α → β) (e : Except ε α) (b : β)
    (h : e.map f = Except.ok b) : ∃ a, e = Except.ok a ∧ b = f a := by
  cases e with
  | error s => simp [Except.map] at h
  | ok a => exact ⟨a, rfl, by simpa [Except.map] using h.symm⟩

theorem activity_ec2_params_ok_core (c : CommonOracle) (a : ActivityClassAttrs)
    (fake_ec2 : Bool) (worker_env : List (String × String)) (p : Ec2Params)
    (h : Activity.ec2_params c a fake_ec2 worker_env = Except.ok p) :
    core_launch_invariant p (a.activity_arn.getD "") := by
  revert h
  unfold Activity.ec2_params
  split
  · intro h
    exact absurd h (by simp)
  · intro h
    injection h with h'
    subst h'
    exact ⟨rfl, rfl, _, List.mem_cons_self _ _, by simp⟩

theorem activity_ec2_params_ok_userData (c : CommonOracle)
    (a : ActivityClassAttrs) (fake_ec2 : Bool)
    (worker_env : List (String × String)) (p : Ec2Params)
    (h : Activity.ec2_params c a fake_ec2 worker_env = Except.ok p) :
    p.userData = mkUserData (a.activity_arn.getD "")
      (c.url (if fake_ec2 then "aws/hhvm1/worker/dummy-task.sh"
        else "aws/userdata/" ++ a.script_name.getD ""))
      (if falsy a.init_script then "" else c.url (a.init_script.getD ""))
      (c.format_env worker_env) (c.fetch "aws/hhvm1/worker/worker.sh") := by
  revert h
  unfold Activity.ec2_params
  split
  · intro h
    exact absurd h (by simp)
  · intro h
    injection h with h'
    subst h'
    rfl

/-- C3: `Activity.ec2_params` raises exactly when one of `ec2_iam_arn`,
`activity_arn`, `script_name` is falsy; every concrete subclass sets all
three, so no concrete subclass ever takes this error branch. -/
theorem ec2_params_missing_config_spec :
    (∀ (c : CommonOracle) (a : ActivityClassAttrs) (fake_ec2 : Bool)
        (worker_env : List (String × String)),
      raises (Activity.ec2_params c a fake_ec2 worker_env) = true ↔
        (falsy a.ec2_iam_arn || falsy a.activity_arn ||
          falsy a.script_name) = true) ∧
    (∀ (k : ActivityKind) (c : CommonOracle) (fake_ec2 : Bool),
      raises (ec2_params_of k c fake_ec2) = false) := by
  constructor
  · intro c a fake_ec2 worker_env
    unfold Activity.ec2_params
    split
    · next h => simp [raises, h]
    · next h => simp [raises, h]
  · intro k c fake_ec2
    cases k <;> cases fake_ec2 <;> rfl

/-- Witness for C3: a concrete subclass with the oracle never raises. -/
theorem ec2_params_missing_config_spec_witness :
    raises (ec2_params_of ActivityKind.buildAndPublishMacOS witnessOracle false) =
      false :=
  ec2_params_missing_config_spec.2 ActivityKind.buildAndPublishMacOS
    witnessOracle false

/-- C8: whenever the `ec2_params` of any concrete subclass succeeds, the result
keeps `MinCount = MaxCount = 1` and a `TagSpecifications` tag with key
`ActivityArn` and the `activity_arn` of the class as value; the base class
guarantees the same for any attribute set. -/
theorem ec2_params_core_invariant_spec :
    (∀ (c : CommonOracle) (a : ActivityClassAttrs) (fake_ec2 : Bool)
        (worker_env : List (String × String)) (p : Ec2Params),
      Activity.ec2_params c a fake_ec2 worker_env = Except.ok p →
        core_launch_invariant p (a.activity_arn.getD "")) ∧
    (∀ (k : ActivityKind) (c : CommonOracle) (fake_ec2 : Bool) (p : Ec2Params),
      ec2_params_of k c fake_ec2 = Except.ok p →
        core_launch_invariant p ((attrs k).activity_arn.getD "")) := by
  constructor
  · intro c a fake_ec2 worker_env p h
    exact activity_ec2_params_ok_core c a fake_ec2 worker_env p h
  · intro k c fake_ec2 p h
    cases k
    case makeSourceTarball =>
      simp only [ec2_params_of, MakeSourceTarball.ec2_params] at h
      obtain ⟨q, hq, rfl⟩ := except_map_ok _ _ _ h
      simpa [core_launch_invariant, attrs] using
        activity_ec2_params_ok_core _ _ _ _ _ hq
    case makeBinaryPackage =>
      simp only [ec2_params_of, MakeBinaryPackage.ec2_params] at h
      obtain ⟨q, hq, rfl⟩ := except_map_ok _ _ _ h
      simpa [core_launch_invariant, attrs] using
        activity_ec2_params_ok_core _ _ _ _ _ hq
    case publishBinaryPackages =>
      simp only [ec2_params_of, PublishBinaryPackages.ec2_params] at h
      obtain ⟨q, hq, rfl⟩ := except_map_ok _ _ _ h
      simpa [core_launch_invariant, attrs] using
        activity_ec2_params_ok_core _ _ _ _ _ hq
    case publishSourceTarball =>
      exact activity_ec2_params_ok_core _ _ _ _ _ h
    case publishDockerImages =>
      exact activity_ec2_params_ok_core _ _ _ _ _ h
    case buildAndPublishMacOS =>
      exact activity_ec2_params_ok_core _ _ _ _ _ h

/-- Witness for C8 at a concrete subclass and oracle. -/
theorem ec2_params_core_invariant_spec_witness :
    core_launch_invariant
      ((ec2_params_of ActivityKind.makeSourceTarball witnessOracle
          true).toOption.getD default)
      ((attrs ActivityKind.makeSourceTarball).activity_arn.getD "") :=
  ec2_params_core_invariant_spec.2 ActivityKind.makeSourceTarball witnessOracle
    true _ rfl

theorem ec2_params_of_userData (k : ActivityKind) (c : CommonOracle)
    (fake_ec2 : Bool) (p : Ec2Params)
    (h : ec2_params_of k c fake_ec2 = Except.ok p) :
    p.userData = mkUserData ((attrs k).activity_arn.getD "")
      (c.url (if fake_ec2 then "aws/hhvm1/worker/dummy-task.sh"
        else "aws/userdata/" ++ (attrs k).script_name.getD ""))
      (if falsy (attrs k).init_script then ""
        else c.url ((attrs k).init_script.getD ""))
      (c.format_env (worker_env_of k)) (c.fetch "aws/hhvm1/worker/worker.sh") := by
  cases k
  case makeSourceTarball =>
    simp only [ec2_params_of, MakeSourceTarball.ec2_params] at h
    obtain ⟨q, hq, rfl⟩ := except_map_ok _ _ _ h
    simpa [attrs, worker_env_of] using
      activity_ec2_params_ok_userData _ _ _ _ _ hq
  case makeBinaryPackage =>
    simp only [ec2_params_of, MakeBinaryPackage.ec2_params] at h
    obtain ⟨q, hq, rfl⟩ := except_map_ok _ _ _ h
    simpa [attrs, worker_env_of] using
      activity_ec2_params_ok_userData _ _ _ _ _ hq
  case publishBinaryPackages =>
    simp only [ec2_params_of, PublishBinaryPackages.ec2_params] at h
    obtain ⟨q, hq, rfl⟩ := except_map_ok _ _ _ h
    simpa [attrs, worker_env_of] using
      activity_ec2_params_ok_userData _ _ _ _ _ hq
  case publishSourceTarball =>
    exact activity_ec2_params_ok_userData _ _ _ _ _ h
  case publishDockerImages =>
    exact activity_ec2_params_ok_userData _ _ _ _ _ h
  case buildAndPublishMacOS =>
    exact activity_ec2_params_ok_userData _ _ _ _ _ h

/-- C10: for every concrete subclass, when the event marks a fake EC2 run
the `SCRIPT_URL` line of `UserData` holds the URL of
`aws/hhvm1/worker/dummy-task.sh` whatever `script_name` is; otherwise it
holds the URL of `aws/userdata/` followed by `script_name`. -/
theorem ec2_params_script_url_spec :
    ∀ (k : ActivityKind) (c : CommonOracle) (p : Ec2Params),
      (ec2_params_of k c true = Except.ok p →
        p.userData = mkUserData ((attrs k).activity_arn.getD "")
          (c.url "aws/hhvm1/worker/dummy-task.sh")
          (if falsy (attrs k).init_script then ""
            else c.url ((attrs k).init_script.getD ""))
          (c.format_env (worker_env_of k))
          (c.fetch "aws/hhvm1/worker/worker.sh")) ∧
      (ec2_params_of k c false = Except.ok p →
        p.userData = mkUserData ((attrs k).activity_arn.getD "")
          (c.url ("aws/userdata/" ++ (attrs k).script_name.getD ""))
          (if falsy (attrs k).init_script then ""
            else c.url ((attrs k).init_script.getD ""))
          (c.format_env (worker_env_of k))
          (c.fetch "aws/hhvm1/worker/worker.sh")) := by
  intro k c p
  constructor
  · intro h
    simpa using ec2_params_of_userData k c true p h
  · intro h
    simpa using ec2_params_of_userData k c false p h

/-- Witness for C10 at a concrete subclass and oracle, fake run. -/
theorem ec2_params_script_url_spec_witness :
    ((ec2_params_of ActivityKind.publishDockerImages witnessOracle
        true).toOption.getD default).userData =
      mkUserData ((attrs ActivityKind.publishDockerImages).activity_arn.getD "")
        (witnessOracle.url "aws/hhvm1/worker/dummy-task.sh")
        (if falsy (attrs ActivityKind.publishDockerImages).init_script then ""
          else witnessOracle.url
            ((attrs ActivityKind.publishDockerImages).init_script.getD ""))
        (witnessOracle.format_env (worker_env_of ActivityKind.publishDockerImages))
        (witnessOracle.fetch "aws/hhvm1/worker/worker.sh") :=
  ((ec2_params_script_url_spec ActivityKind.publishDockerImages witnessOracle
      _).1) rfl
